import Mathlib

/-!
Verification of the process-hunter pipeline: snapshot collection
(`hunt_processes.py`), classification (`categorize_process`), the termination
controller (`terminate_process.py`), and the baseline / impact-report logic
(`measure_power.py`).

Modelling conventions:
* Python strings are Lean `String`s; case-insensitive regex matching is
  modelled by mapping both sides through an ASCII lowering function, which is
  what `str.lower()` / `re.IGNORECASE` amount to on the ASCII-only patterns of
  the source.
* The regular expressions that occur in the source fall into three shapes:
  fully anchored literals (`^lit$`), prefix-anchored literals (`^lit`), and
  unanchored sequences of literals separated by `.*`.  They are represented by
  the `Pat` type below, with `re.search` semantics.
* Python floats (cpu percentages, memory sizes) are modelled as rationals;
  the source only adds, divides by constants and compares them.
* Effectful calls (`os.kill`, `is_running`, `pmset`, the baseline file) are
  modelled by passing in the outcome of each external interaction explicitly;
  Python exceptions become `Except` values or explicit outcome constructors.
-/

/-- ASCII lowering of one character, as `str.lower()` acts on ASCII. -/
def lowerChar (c : Char) : Char :=
  if 'A' ≤ c ∧ c ≤ 'Z' then Char.ofNat (c.toNat + 32) else c

/-- Lowered character list of a string (`s.lower()`). -/
def lowered (s : String) : List Char := s.data.map lowerChar

/-- Python `needle in hay` on strings (substring containment). -/
def containsSub (needle : List Char) : List Char → Bool
  | [] => needle.isEmpty
  | c :: t => needle.isPrefixOf (c :: t) || containsSub needle t

/-- Drop through the first (leftmost) occurrence of `needle`, returning the
remaining suffix, or `none` when `needle` does not occur. -/
def afterFirstMatch (needle : List Char) : List Char → Option (List Char)
  | [] => if needle.isEmpty then some [] else none
  | c :: t =>
    if needle.isPrefixOf (c :: t) then some ((c :: t).drop needle.length)
    else afterFirstMatch needle t

/-- `re.search` of the pattern `l₁.*l₂.*…*lₖ`: the literals occur left to
right without overlap. -/
def seqSearch : List (List Char) → List Char → Bool
  | [], _ => true
  | n :: ns, s =>
    match afterFirstMatch n s with
    | none => false
    | some rest => seqSearch ns rest

/-- The three regex shapes used by `hunt_processes.py`: `^lit$`, `^lit`, and
`l₁.*l₂.*…*lₖ` (unanchored).  Literals are stored lowercase. -/
inductive Pat where
  | exact (lit : String)
  | startsWith (lit : String)
  | seq (lits : List String)

/-- Case-insensitive `re.search` of a `Pat` against `s`. -/
def patMatch (p : Pat) (s : String) : Bool :=
  match p with
  | .exact lit => lowered s == lit.data
  | .startsWith lit => lit.data.isPrefixOf (lowered s)
  | .seq lits => seqSearch (lits.map String.data) (lowered s)

/-- `AUTO_KILL_PATTERNS` of `hunt_processes.py`: ordered (pattern, reason)
pairs, first match wins. -/
def AUTO_KILL_PATTERNS : List (Pat × String) := [
  (.seq ["next-server"], "Next.js fire-eater"),
  (.seq ["node", "next", "dev"], "Next.js cave server"),
  (.seq ["node", "webpack", "dev"], "Webpack bundle-beast"),
  (.seq ["node", "vite"], "Vite speed-demon"),
  (.seq ["node", "turbo"], "Turbo thunder-lizard"),
  (.seq ["npm", "run", "dev"], "npm run-run process"),
  (.seq ["yarn", "dev"], "yarn spinny thing"),
  (.seq ["pnpm", "dev"], "pnpm tiny demon"),
  (.seq ["node", "react-native"], "React Native bridge troll"),
  (.seq ["node", "expo"], "Expo magic box"),
  (.seq ["claude"], "Claude brain-in-box"),
  (.seq ["node", "esbuild"], "esbuild fast-maker"),
  (.seq ["node", "rollup"], "Rollup bundle-roller"),
  (.seq ["tsc", "--watch"], "TypeScript watcher-eye")]

/-- `IGNORE_PATTERNS` of `hunt_processes.py` (anchored system-process
names, matched against the process name only). -/
def IGNORE_PATTERNS : List Pat := [
  .exact "kernel_task",
  .exact "launchd",
  .exact "windowserver",
  .exact "coreaudiod",
  .exact "loginwindow",
  .exact "finder",
  .exact "dock",
  .exact "systemuiserver",
  .exact "mds_stores",
  .exact "mds",
  .startsWith "mdworker",
  .startsWith "spotlight",
  .exact "cfprefsd",
  .exact "distnoted",
  .exact "trustd",
  .exact "securityd"]

/-- `categorize_process(name, command)` of `hunt_processes.py`: IGNORE
patterns against `name` first, then AUTO_KILL patterns against
`f"{name} {command}"`, else ASK. -/
def categorize_process (name command : String) : String × String :=
  let full_str := name ++ " " ++ command
  if IGNORE_PATTERNS.any (fun p => patMatch p name) then
    ("IGNORE", "Sacred spirit - NO TOUCH")
  else
    match AUTO_KILL_PATTERNS.find? (fun pr => patMatch pr.1 full_str) with
    | some pr => ("AUTO_KILL", pr.2)
    | none => ("ASK", "Mystery creature - me not know")

/-- `ProcessInfo` dataclass of `hunt_processes.py`. -/
structure ProcessInfo where
  pid : Int
  name : String
  cpu_percent : ℚ
  mem_mb : ℚ
  command : String
  category : String
  reason : String
deriving DecidableEq

/-- One successfully parsed row of the `ps -eo pid,pcpu,rss,comm,args`
listing, after the `int`/`float` conversions of `get_processes` succeed
(`pid`, `pcpu`, `rss` in KB, `comm`, `args`). -/
structure PsRow where
  pid : Int
  cpu : ℚ
  mem_kb : ℚ
  name : String
  command : String
deriving DecidableEq

/-- The per-row body of `get_processes` (lines 101-119 of
`hunt_processes.py`): threshold filter, self-exclusion, classification, and
construction of the `ProcessInfo` record with the command truncated to 100
characters.  `none` means the row is filtered out. -/
def process_row (cpu_threshold mem_threshold : ℚ) (r : PsRow) : Option ProcessInfo :=
  let mem_mb := r.mem_kb / 1024
  if r.cpu < cpu_threshold ∧ mem_mb < mem_threshold then none
  else if containsSub "hunt_processes".data r.command.data then none
  else
    let cr := categorize_process r.name r.command
    some {
      pid := r.pid
      name := r.name
      cpu_percent := r.cpu
      mem_mb := mem_mb
      command := String.mk (r.command.data.take 100)
      category := cr.1
      reason := cr.2 }

/-- C1: if the name matches any IGNORE pattern, classification returns IGNORE
immediately (regardless of the command); AUTO_KILL patterns are consulted
against the name-command concatenation only when no IGNORE pattern matches,
and when nothing matches the result is ASK. -/
theorem categorize_ignore_precedence (name command : String) :
    (IGNORE_PATTERNS.any (fun p => patMatch p name) = true →
      categorize_process name command = ("IGNORE", "Sacred spirit - NO TOUCH")) ∧
    (IGNORE_PATTERNS.any (fun p => patMatch p name) = false →
      ((∃ pr ∈ AUTO_KILL_PATTERNS, patMatch pr.1 (name ++ " " ++ command) = true) →
        (categorize_process name command).1 = "AUTO_KILL") ∧
      ((∀ pr ∈ AUTO_KILL_PATTERNS, patMatch pr.1 (name ++ " " ++ command) = false) →
        categorize_process name command = ("ASK", "Mystery creature - me not know"))) := by
  refine ⟨fun h => ?_, fun h => ⟨fun hex => ?_, fun hall => ?_⟩⟩
  · simp only [categorize_process, h, if_true]
  · have hsome : (AUTO_KILL_PATTERNS.find?
        (fun pr => patMatch pr.1 (name ++ " " ++ command))).isSome = true := by
      rw [List.find?_isSome]
      obtain ⟨pr, hmem, hmatch⟩ := hex
      exact ⟨pr, hmem, hmatch⟩
    obtain ⟨pr, hpr⟩ := Option.isSome_iff_exists.mp hsome
    simp only [categorize_process, h, Bool.false_eq_true, if_false, hpr]
  · have hnone : AUTO_KILL_PATTERNS.find?
        (fun pr => patMatch pr.1 (name ++ " " ++ command)) = none := by
      rw [List.find?_eq_none]
      intro pr hmem
      simp [hall pr hmem]
    simp only [categorize_process, h, Bool.false_eq_true, if_false, hnone]

/-- C1 witness: `launchd` matches an IGNORE pattern and the command matches
the AUTO_KILL dev-server pattern, yet the classification is IGNORE. -/
theorem categorize_ignore_precedence_witness :
    categorize_process "launchd" "node next dev" = ("IGNORE", "Sacred spirit - NO TOUCH") :=
  (categorize_ignore_precedence "launchd" "node next dev").1 (by decide)

/-- C2: classification is total and pure: for every name/command pair it
returns exactly one pair whose category is AUTO_KILL, ASK or IGNORE, and
identical inputs yield identical results. -/
theorem categorize_total_pure (name command : String) :
    ((categorize_process name command).1 = "AUTO_KILL" ∨
     (categorize_process name command).1 = "ASK" ∨
     (categorize_process name command).1 = "IGNORE") ∧
    categorize_process name command = categorize_process name command := by
  refine ⟨?_, rfl⟩
  unfold categorize_process
  split
  · right; right; rfl
  · cases hf : AUTO_KILL_PATTERNS.find? (fun pr => patMatch pr.1 (name ++ " " ++ command)) with
    | none => right; left; simp [hf]
    | some pr => left; simp [hf]

/-- A signal name passed to `os.kill` by `terminate_process.py`. -/
inductive Sig where
  | SIGTERM
  | SIGKILL
deriving DecidableEq

/-- Outcome of one `os.kill(pid, sig)` call: normal return, a raised
`PermissionError`, or another raised `OSError` carrying a message. -/
inductive SigOutcome where
  | ok
  | permError
  | osError (msg : String)
deriving DecidableEq

/-- The external world as seen by one `terminate(pid, force)` call:
`procName` is the result of `get_process_name(pid)`; `sigtermResult` /
`sigkillResult` are the outcomes of the `os.kill` calls with the polite and
the forceful signal; `isRunningResult k` is the result of the k-th
`is_running(pid)` call (k = 0..5 are the six graceful polls, k = 6 is the
re-check after the forceful signal; `is_running` itself never raises since
it converts `OSError` to `False`). -/
structure KillEnv where
  procName : Option String
  sigtermResult : SigOutcome
  sigkillResult : SigOutcome
  isRunningResult : Nat → Bool

/-- Result of `terminate`: the returned (success, message) pair plus the
trace of `os.kill` calls attempted, in order. -/
structure TermResult where
  success : Bool
  message : String
  signals : List Sig

/-- Message f-strings of `terminate_process.py`, kept verbatim. -/
def msg_already_gone (pid : Nat) : String :=
  "🦴 Ugh! Process " ++ (toString pid ++ " already gone. Maybe mammoth step on it?")

def msg_forced_success (name : String) (pid : Nat) : String :=
  "💥 OOGA BOOGA! Me use BIG CLUB on " ++ (name ++ " (PID " ++ toString pid ++ ")! Process flat now.")

def msg_forced_perm (name : String) (pid : Nat) : String :=
  "🚫 Grunt! Cave spirits say no touch " ++ (name ++ " (PID " ++ toString pid ++ "). Need more shaman power.")

def msg_forced_oserr (name e : String) : String :=
  "😵 Ugh! Something go wrong bonking " ++ (name ++ ": " ++ e)

def msg_peaceful (name : String) : String :=
  "    ✨ " ++ (name ++ " listen to caveman! Walk away peaceful. Good process.")

def msg_bonk (name : String) (pid : Nat) : String :=
  "    💥 BONK! " ++ (name ++ " (PID " ++ toString pid ++ ") no more. Should have listened first time!")

def msg_still_alive (name : String) : String :=
  "    😱 Impossible! " ++ (name ++ " still alive after big club! Must be spirit!")

def msg_graceful_perm (name : String) (pid : Nat) : String :=
  "    🚫 Cave spirits protect " ++ (name ++ " (PID " ++ toString pid ++ "). Me not strong enough.")

def msg_graceful_oserr (e : String) : String :=
  "    😵 Ugh! Me club hit rock instead: " ++ e

/-- `terminate(pid, force)` of `terminate_process.py`.  The graceful branch
sends SIGTERM, polls `is_running` six times (returning success at the first
poll that observes the process dead), then escalates to SIGKILL and
re-checks once; the forced branch sends SIGKILL only.  Raised
`PermissionError` / `OSError` jump to the enclosing handler exactly as the
`try`/`except` blocks of the source do. -/
def terminate (env : KillEnv) (pid : Nat) (force : Bool) : TermResult :=
  match env.procName with
  | none => ⟨false, msg_already_gone pid, []⟩
  | some name =>
    if force then
      match env.sigkillResult with
      | .ok => ⟨true, msg_forced_success name pid, [.SIGKILL]⟩
      | .permError => ⟨false, msg_forced_perm name pid, [.SIGKILL]⟩
      | .osError e => ⟨false, msg_forced_oserr name e, [.SIGKILL]⟩
    else
      match env.sigtermResult with
      | .permError => ⟨false, msg_graceful_perm name pid, [.SIGTERM]⟩
      | .osError e => ⟨false, msg_graceful_oserr e, [.SIGTERM]⟩
      | .ok =>
        match (List.range 6).find? (fun k => !env.isRunningResult k) with
        | some _ => ⟨true, msg_peaceful name, [.SIGTERM]⟩
        | none =>
          match env.sigkillResult with
          | .permError => ⟨false, msg_graceful_perm name pid, [.SIGTERM, .SIGKILL]⟩
          | .osError e => ⟨false, msg_graceful_oserr e, [.SIGTERM, .SIGKILL]⟩
          | .ok =>
            if env.isRunningResult 6 then ⟨false, msg_still_alive name, [.SIGTERM, .SIGKILL]⟩
            else ⟨true, msg_bonk name pid, [.SIGTERM, .SIGKILL]⟩

/-- Exit code of `main()` in `terminate_process.py`:
`sys.exit(0 if success else 1)`. -/
def terminate_main_exit (env : KillEnv) (pid : Nat) (force : Bool) : Nat :=
  if (terminate env pid force).success then 0 else 1

/-- Two string appends with distinct left parts (up to length `k`) are
distinct, whatever the right parts are. -/
theorem string_append_ne_of_take_ne (p q x y : String) (k : Nat)
    (hp : k ≤ p.data.length) (hq : k ≤ q.data.length)
    (hne : p.data.take k ≠ q.data.take k) :
    p ++ x ≠ q ++ y := by
  intro h
  apply hne
  have hd : p.data ++ x.data = q.data ++ y.data := by
    have h2 := congrArg String.data h
    simpa [String.data_append] using h2
  calc p.data.take k = (p.data ++ x.data).take k :=
        (List.take_append_of_le_length hp).symm
    _ = (q.data ++ y.data).take k := by rw [hd]
    _ = q.data.take k := List.take_append_of_le_length hq

/-- C3: in graceful mode at most two signals are ever attempted; with the
process found and the polite signal delivered, the polite signal is sent
exactly once, any poll observing the process dead yields immediate success
with no forceful signal, and the forceful signal is sent (exactly once)
precisely when the process survived all six polls. -/
theorem terminate_graceful_signal_discipline (env : KillEnv) (pid : Nat) :
    ((terminate env pid false).signals.count Sig.SIGTERM ≤ 1 ∧
     (terminate env pid false).signals.count Sig.SIGKILL ≤ 1 ∧
     (terminate env pid false).signals.length ≤ 2) ∧
    (∀ name, env.procName = some name →
      (terminate env pid false).signals.count Sig.SIGTERM = 1 ∧
      (env.sigtermResult = SigOutcome.ok →
        ((∃ k, k < 6 ∧ env.isRunningResult k = false) →
          (terminate env pid false).success = true ∧
          (terminate env pid false).signals = [Sig.SIGTERM]) ∧
        (Sig.SIGKILL ∈ (terminate env pid false).signals ↔
          ∀ k, k < 6 → env.isRunningResult k = true) ∧
        (Sig.SIGKILL ∈ (terminate env pid false).signals →
          (terminate env pid false).signals.count Sig.SIGKILL = 1))) := by
  have hfind : ∀ (h : ∃ k, k < 6 ∧ env.isRunningResult k = false),
      ((List.range 6).find? (fun k => !env.isRunningResult k)).isSome = true := by
    intro ⟨k, hk, hdead⟩
    rw [List.find?_isSome]
    exact ⟨k, List.mem_range.mpr hk, by simp [hdead]⟩
  have hnone : ((List.range 6).find? (fun k => !env.isRunningResult k)) = none ↔
      ∀ k, k < 6 → env.isRunningResult k = true := by
    rw [List.find?_eq_none]
    constructor
    · intro h k hk
      have := h k (List.mem_range.mpr hk)
      simpa using this
    · intro h k hk
      simp [h k (List.mem_range.mp hk)]
  cases hn : env.procName with
  | none => simp [terminate, hn]
  | some name =>
    refine ⟨?_, ?_⟩
    · cases hst : env.sigtermResult with
      | permError => simp [terminate, hn, hst]
      | osError e => simp [terminate, hn, hst]
      | ok =>
        cases hf : (List.range 6).find? (fun k => !env.isRunningResult k) with
        | some k => simp [terminate, hn, hst, hf]
        | none =>
          cases hsk : env.sigkillResult with
          | permError => simp [terminate, hn, hst, hf, hsk]
          | osError e => simp [terminate, hn, hst, hf, hsk]
          | ok =>
            by_cases h6 : env.isRunningResult 6 <;>
              simp [terminate, hn, hst, hf, hsk, h6]
    · intro name' hname'
      refine ⟨?_, fun hok => ⟨fun hex => ?_, ?_, ?_⟩⟩
      · cases hst : env.sigtermResult with
        | permError => simp [terminate, hn, hst]
        | osError e => simp [terminate, hn, hst]
        | ok =>
          cases hf : (List.range 6).find? (fun k => !env.isRunningResult k) with
          | some k => simp [terminate, hn, hst, hf]
          | none =>
            cases hsk : env.sigkillResult with
            | permError => simp [terminate, hn, hst, hf, hsk]
            | osError e => simp [terminate, hn, hst, hf, hsk]
            | ok =>
              by_cases h6 : env.isRunningResult 6 <;>
                simp [terminate, hn, hst, hf, hsk, h6]
      · have hs := hfind hex
        obtain ⟨k, hk⟩ := Option.isSome_iff_exists.mp hs
        simp [terminate, hn, hok, hk]
      · cases hf : (List.range 6).find? (fun k => !env.isRunningResult k) with
        | some k =>
          have hpk := List.find?_some hf
          have hmem := List.mem_of_find?_eq_some hf
          have hk6 := List.mem_range.mp hmem
          have hdead : env.isRunningResult k = false := by simpa using hpk
          constructor
          · intro hmem'
            exfalso
            simp [terminate, hn, hok, hf] at hmem'
          · intro hall
            exact absurd (hall k hk6) (by simp [hdead])
        | none =>
          have hall := hnone.mp hf
          constructor
          · intro _; exact hall
          · intro _
            cases hsk : env.sigkillResult with
            | permError => simp [terminate, hn, hok, hf, hsk]
            | osError e => simp [terminate, hn, hok, hf, hsk]
            | ok =>
              by_cases h6 : env.isRunningResult 6 <;>
                simp [terminate, hn, hok, hf, hsk, h6]
      · intro hmem
        cases hf : (List.range 6).find? (fun k => !env.isRunningResult k) with
        | some k =>
          exfalso
          simp [terminate, hn, hok, hf] at hmem
        | none =>
          cases hsk : env.sigkillResult with
          | permError => simp [terminate, hn, hok, hf, hsk]
          | osError e => simp [terminate, hn, hok, hf, hsk]
          | ok =>
            by_cases h6 : env.isRunningResult 6 <;>
              simp [terminate, hn, hok, hf, hsk, h6]

/-- Concrete environment: process found, both signals deliverable, the
process observed dead at the very first poll. -/
def envPolite : KillEnv :=
  ⟨some "next-server", SigOutcome.ok, SigOutcome.ok, fun _ => false⟩

/-- C3 witness: with the process dying at the first poll, graceful
termination succeeds having sent only the polite signal. -/
theorem terminate_graceful_signal_discipline_witness :
    (terminate envPolite 42 false).success = true ∧
    (terminate envPolite 42 false).signals = [Sig.SIGTERM] :=
  (((terminate_graceful_signal_discipline envPolite 42).2 "next-server" rfl).2
    rfl).1 ⟨0, by decide, rfl⟩

/-- C4: the three failure outcomes (process not found, permission denied,
still alive after the forceful signal) carry pairwise distinct messages; the
command exits 0 exactly on success and 1 on every failure, including the
benign not-found case. -/
theorem terminate_failures_distinct_and_exit (env : KillEnv) (pid : Nat)
    (force : Bool) (name : String) :
    (terminate_main_exit env pid force = 0 ↔ (terminate env pid force).success = true) ∧
    (terminate_main_exit env pid force = 1 ↔ (terminate env pid force).success = false) ∧
    msg_already_gone pid ≠ msg_graceful_perm name pid ∧
    msg_already_gone pid ≠ msg_still_alive name ∧
    msg_graceful_perm name pid ≠ msg_still_alive name ∧
    (env.procName = none →
      (terminate env pid force).success = false ∧
      (terminate env pid force).message = msg_already_gone pid) ∧
    (∀ n, env.procName = some n → env.sigtermResult = SigOutcome.permError →
      (terminate env pid false).success = false ∧
      (terminate env pid false).message = msg_graceful_perm n pid) ∧
    (∀ n, env.procName = some n → env.sigtermResult = SigOutcome.ok →
      (∀ k, env.isRunningResult k = true) → env.sigkillResult = SigOutcome.ok →
      (terminate env pid false).success = false ∧
      (terminate env pid false).message = msg_still_alive n) := by
  refine ⟨?_, ?_, ?_, ?_, ?_, ?_, ?_, ?_⟩
  · unfold terminate_main_exit
    by_cases h : (terminate env pid force).success <;> simp [h]
  · unfold terminate_main_exit
    by_cases h : (terminate env pid force).success <;> simp [h]
  · unfold msg_already_gone msg_graceful_perm
    exact string_append_ne_of_take_ne _ _ _ _ 1 (by decide) (by decide) (by decide)
  · unfold msg_already_gone msg_still_alive
    exact string_append_ne_of_take_ne _ _ _ _ 1 (by decide) (by decide) (by decide)
  · unfold msg_graceful_perm msg_still_alive
    exact string_append_ne_of_take_ne _ _ _ _ 5 (by decide) (by decide) (by decide)
  · intro hn
    simp [terminate, hn]
  · intro n hn hst
    simp [terminate, hn, hst]
  · intro n hn hst hall hsk
    have hf : ((List.range 6).find? (fun k => !env.isRunningResult k)) = none := by
      rw [List.find?_eq_none]
      intro k _
      simp [hall k]
    simp [terminate, hn, hst, hf, hsk, hall 6]

/-- Concrete environment: the target process is already gone. -/
def envGone : KillEnv :=
  ⟨none, SigOutcome.ok, SigOutcome.ok, fun _ => true⟩

/-- C4 witness: messages of the three failure outcomes are distinct at a
concrete pid and name, and the not-found outcome exits with code 1. -/
theorem terminate_failures_distinct_and_exit_witness :
    msg_already_gone 7 ≠ msg_graceful_perm "Dock" 7 ∧
    msg_graceful_perm "Dock" 7 ≠ msg_still_alive "Dock" ∧
    (terminate envGone 7 false).success = false ∧
    (terminate envGone 7 false).message = msg_already_gone 7 ∧
    terminate_main_exit envGone 7 false = 1 := by
  have h := terminate_failures_distinct_and_exit envGone 7 false "Dock"
  have hgone := (h.2.2.2.2.2.1) rfl
  exact ⟨h.2.2.1, h.2.2.2.2.1, hgone.1, hgone.2, (h.2.1).mpr hgone.1⟩

/-- C5: in forced mode the polite signal is never sent; with the process
found, exactly one forceful signal is attempted, delivery means immediate
success with no liveness re-check (the result is independent of every
`is_running` outcome), and failure arises exactly from a permission or
OS-level error, each with its own message. -/
theorem terminate_forced_behaviour (env : KillEnv) (pid : Nat) :
    Sig.SIGTERM ∉ (terminate env pid true).signals ∧
    (∀ f, terminate { env with isRunningResult := f } pid true = terminate env pid true) ∧
    (∀ name, env.procName = some name →
      (terminate env pid true).signals = [Sig.SIGKILL] ∧
      (env.sigkillResult = SigOutcome.ok →
        (terminate env pid true).success = true ∧
        (terminate env pid true).message = msg_forced_success name pid) ∧
      ((terminate env pid true).success = false ↔
        env.sigkillResult = SigOutcome.permError ∨
        ∃ e, env.sigkillResult = SigOutcome.osError e) ∧
      (env.sigkillResult = SigOutcome.permError →
        (terminate env pid true).message = msg_forced_perm name pid) ∧
      (∀ e, env.sigkillResult = SigOutcome.osError e →
        (terminate env pid true).message = msg_forced_oserr name e) ∧
      (∀ e, msg_forced_perm name pid ≠ msg_forced_oserr name e)) := by
  refine ⟨?_, ?_, ?_⟩
  · cases hn : env.procName with
    | none => simp [terminate, hn]
    | some name =>
      cases hsk : env.sigkillResult <;> simp [terminate, hn, hsk]
  · intro f
    cases hn : env.procName with
    | none => simp [terminate, hn]
    | some name =>
      cases hsk : env.sigkillResult <;> simp [terminate, hn, hsk]
  · intro name hn
    refine ⟨?_, fun hok => ?_, ?_, fun hperm => ?_, fun e hos => ?_, fun e => ?_⟩
    · cases hsk : env.sigkillResult <;> simp [terminate, hn, hsk]
    · simp [terminate, hn, hok]
    · cases hsk : env.sigkillResult <;> simp [terminate, hn, hsk]
    · simp [terminate, hn, hperm]
    · simp [terminate, hn, hos]
    · unfold msg_forced_perm msg_forced_oserr
      exact string_append_ne_of_take_ne _ _ _ _ 1 (by decide) (by decide) (by decide)

/-- Concrete environment: process found and the forceful signal deliverable. -/
def envForced : KillEnv :=
  ⟨some "vite", SigOutcome.ok, SigOutcome.ok, fun _ => true⟩

/-- C5 witness: forced termination of a found process sends exactly one
forceful signal, no polite signal, and reports immediate success. -/
theorem terminate_forced_behaviour_witness :
    Sig.SIGTERM ∉ (terminate envForced 9 true).signals ∧
    (terminate envForced 9 true).signals = [Sig.SIGKILL] ∧
    (terminate envForced 9 true).success = true := by
  have h := terminate_forced_behaviour envForced 9
  have h2 := h.2.2 "vite" rfl
  exact ⟨h.1, h2.1, (h2.2.1 rfl).1⟩

/-- Numeric value of a digit run, as `int()` reads it. -/
def digitsToNat (l : List Char) : Nat := l.foldl (fun n c => 10 * n + (c.toNat - 48)) 0

/-- `re.search(r"(\d+)%", output)`: the leftmost digit run immediately
followed by a percent sign (the characters of a digit run and `%` are
disjoint, so greedy matching needs no further backtracking). -/
def find_pct : List Char → Option Nat
  | [] => none
  | c :: rest =>
    if c.isDigit && ((c :: rest).dropWhile Char.isDigit).headD 'x' == '%' then
      some (digitsToNat ((c :: rest).takeWhile Char.isDigit))
    else find_pct rest

/-- `re.search(r"(\d+:\d+) remaining", output)`: leftmost digit run, a
colon, a second digit run, then the literal text `" remaining"`.  Returns
the matched `h:mm` characters together with `h * 60 + m`. -/
def find_time : List Char → Option (List Char × Nat)
  | [] => none
  | c :: rest =>
    if c.isDigit then
      let run1 := (c :: rest).takeWhile Char.isDigit
      match (c :: rest).dropWhile Char.isDigit with
      | ':' :: t =>
        if (t.headD 'x').isDigit then
          let run2 := t.takeWhile Char.isDigit
          if " remaining".data.isPrefixOf (t.dropWhile Char.isDigit) then
            some (run1 ++ ':' :: run2, digitsToNat run1 * 60 + digitsToNat run2)
          else find_time rest
        else find_time rest
      | _ => find_time rest
    else find_time rest

/-- The charging-status chain of `get_battery_info` (substring checks on the
lowered output, except the case-sensitive `"AC Power"`). -/
def parse_status (output : List Char) : Option String :=
  let low := output.map lowerChar
  if containsSub "discharging".data low then some "juice leaving"
  else if containsSub "charging".data low then some "eating lightning"
  else if containsSub "charged".data low then some "belly full"
  else if containsSub "AC Power".data output then some "plugged to wall-vine"
  else none

/-- The battery-info dict built by `get_battery_info` from the `pmset -g
batt` output (the `timestamp` and `raw` display fields are omitted from the
model; a missing dict key is `none`). -/
structure BatteryInfo where
  percentage : Option Nat
  status : Option String
  time_remaining : Option String
  time_remaining_minutes : Option Nat
deriving DecidableEq

/-- `get_battery_info()` of `measure_power.py`, as a function of the `pmset`
output it parses. -/
def get_battery_info (output : String) : BatteryInfo :=
  let l := output.data
  let tm := find_time l
  { percentage := find_pct l
    status := parse_status l
    time_remaining := tm.map (fun p => String.mk p.1)
    time_remaining_minutes := tm.map (fun p => p.2) }

/-- One entry of `get_top_cpu_processes()` output. -/
structure ProcEntry where
  pid : Int
  cpu : ℚ
  mem_mb : ℚ
  name : String
deriving DecidableEq

/-- The JSON object written by `save_baseline` to the single baseline file. -/
structure BaselineData where
  battery : BatteryInfo
  top_processes : List ProcEntry
  processes_killed : Int
  mem_freed_mb : ℚ
deriving DecidableEq

/-- `save_baseline(processes_killed, mem_freed_mb)`: captures the current
battery reading and top processes together with the operator-supplied
counters; the returned record is what overwrites the baseline file. -/
def save_baseline (battery : BatteryInfo) (top_processes : List ProcEntry)
    (processes_killed : Int) (mem_freed_mb : ℚ) : BaselineData :=
  { battery, top_processes, processes_killed, mem_freed_mb }

/-- The five narrative tiers of `get_comparison_art`. -/
inductive ComparisonTier where
  | major
  | notable
  | marginal
  | nochange
  | regression
deriving DecidableEq

/-- Branch selection of `get_comparison_art(before_min, after_min)`: which
of the five art templates is chosen for `diff = after_min - before_min`. -/
def get_comparison_art (before_min after_min : Int) : ComparisonTier :=
  let diff := after_min - before_min
  if diff > 30 then .major
  else if diff > 10 then .notable
  else if diff > 0 then .marginal
  else if diff = 0 then .nochange
  else .regression

/-- The printable sections of the `measure_power.py` commands, in the order
the source prints them. -/
inductive ReportPart where
  | header
  | killArt
  | comparisonArt
  | procTable
  | reductionLine
  | batteryArt (improved : Bool)
  | timeRemainingLine
  | footer
  | noBaselineWarning
  | statusHeader
  | statusLine
deriving DecidableEq

/-- `show_impact_report(processes_killed, mem_freed_mb)` of
`measure_power.py`, as the sequence of sections it prints.  `stored` is the
baseline file content (`none` when the file does not exist), `current` the
fresh battery reading, `current_procs` the fresh top-process listing.
`Except.error ()` models the `TypeError` raised by formatting a `None`
percentage inside `get_battery_art` (`f"{percentage:>3}"`).  The comparison
art is printed only when both minute values (dict lookups defaulting to 0)
are truthy, i.e. nonzero. -/
def show_impact_report_run (stored : Option BaselineData) (current : BatteryInfo)
    (current_procs : List ProcEntry) (processes_killed : Int) (mem_freed_mb : ℚ) :
    Except Unit (List ReportPart) :=
  let _mem_freed_gb : ℚ := if mem_freed_mb > 0 then mem_freed_mb / 1024 else 0
  let killParts := if processes_killed > 0 then [ReportPart.killArt] else []
  let baseParts :=
    match stored with
    | none => []
    | some b =>
      let before_min := b.battery.time_remaining_minutes.getD 0
      let after_min := current.time_remaining_minutes.getD 0
      let cmpParts := if before_min ≠ 0 ∧ after_min ≠ 0 then [ReportPart.comparisonArt] else []
      let before_procs := b.top_processes.take 3
      let after_procs := current_procs.take 3
      let reduction := ((before_procs.map ProcEntry.cpu).sum) - ((after_procs.map ProcEntry.cpu).sum)
      cmpParts ++ [ReportPart.procTable] ++
        (if reduction > 0 then [ReportPart.reductionLine] else [])
  let improved := stored.isSome && decide (processes_killed > 0)
  match current.percentage with
  | none => Except.error ()
  | some _ =>
    Except.ok (ReportPart.header :: killParts ++ baseParts ++
      [ReportPart.batteryArt improved] ++
      (if current.time_remaining.getD "" ≠ "" then [ReportPart.timeRemainingLine] else []) ++
      [ReportPart.footer])

/-- `compare_to_baseline()` (the `after` command): a missing baseline is a
reported warning; otherwise the impact report runs with the killed/freed
counters read from the stored baseline itself. -/
def compare_to_baseline (stored : Option BaselineData) (current : BatteryInfo)
    (current_procs : List ProcEntry) : Except Unit (List ReportPart) :=
  match stored with
  | none => Except.ok [ReportPart.noBaselineWarning]
  | some b => show_impact_report_run (some b) current current_procs
      b.processes_killed b.mem_freed_mb

/-- `show_status()` of `measure_power.py`: prints the battery art (which
raises a `TypeError` when the percentage is `None`), the status line, and
the remaining-time line when present. -/
def show_status (info : BatteryInfo) : Except Unit (List ReportPart) :=
  match info.percentage with
  | none => Except.error ()
  | some _ =>
    Except.ok ([ReportPart.statusHeader, ReportPart.batteryArt false, ReportPart.statusLine] ++
      (if info.time_remaining.getD "" ≠ "" then [ReportPart.timeRemainingLine] else []))

/-- C6: the time-remaining delta falls into exactly one of five mutually
exclusive, exhaustive tiers with the written boundaries; deltas 31, 11, 1,
0 and -1 land in the five tiers respectively. -/
theorem comparison_art_tiers (b a : Int) :
    (get_comparison_art b a = ComparisonTier.major ↔ 30 < a - b) ∧
    (get_comparison_art b a = ComparisonTier.notable ↔ 10 < a - b ∧ a - b ≤ 30) ∧
    (get_comparison_art b a = ComparisonTier.marginal ↔ 0 < a - b ∧ a - b ≤ 10) ∧
    (get_comparison_art b a = ComparisonTier.nochange ↔ a - b = 0) ∧
    (get_comparison_art b a = ComparisonTier.regression ↔ a - b < 0) ∧
    get_comparison_art 0 31 = ComparisonTier.major ∧
    get_comparison_art 0 11 = ComparisonTier.notable ∧
    get_comparison_art 0 1 = ComparisonTier.marginal ∧
    get_comparison_art 0 0 = ComparisonTier.nochange ∧
    get_comparison_art 0 (-1) = ComparisonTier.regression := by
  refine ⟨?_, ?_, ?_, ?_, ?_, by decide, by decide, by decide, by decide, by decide⟩ <;>
    (simp only [get_comparison_art]; split_ifs <;> simp_all <;> omega)

/-- C7 counterexample data: battery readings parsed from `pmset` outputs
whose remaining-time estimates are 0:00 and 0:05. -/
def batt0 : BatteryInfo := ⟨some 80, some "juice leaving", some "0:00", some 0⟩

def batt5 : BatteryInfo := ⟨some 85, some "juice leaving", some "0:05", some 5⟩

def baseline0 : BaselineData := ⟨batt0, [], 0, 0⟩

deriving instance DecidableEq for Except

/-- C7 counterexample: both sides carry a known, non-null
`time_remaining_minutes` (0 and 5 minutes), yet the report omits the
temporal comparison, because the source tests Python truthiness of the
minute values and 0 is falsy. -/
theorem impact_report_comparison_counterexample :
    get_battery_info "Now drawing from Battery Power; 80%; discharging; 0:00 remaining" = batt0 ∧
    get_battery_info "Now drawing from Battery Power; 85%; discharging; 0:05 remaining" = batt5 ∧
    batt0.time_remaining_minutes = some 0 ∧
    batt5.time_remaining_minutes = some 5 ∧
    show_impact_report_run (some baseline0) batt5 [] 0 0 =
      Except.ok [ReportPart.header, ReportPart.procTable, ReportPart.batteryArt false,
        ReportPart.timeRemainingLine, ReportPart.footer] ∧
    ReportPart.comparisonArt ∉
      ([ReportPart.header, ReportPart.procTable, ReportPart.batteryArt false,
        ReportPart.timeRemainingLine, ReportPart.footer] : List ReportPart) := by
  refine ⟨by decide, by decide, rfl, rfl, ?_, by decide⟩
  norm_num [show_impact_report_run, baseline0, batt0, batt5]
  decide

/-- C7 (amended): with a known current percentage, the report always
succeeds, the temporal comparison is printed exactly when both minute
values (defaulted to 0 when absent) are nonzero, and the other sections are
produced regardless. -/
theorem impact_report_comparison_truthiness (b : BaselineData) (current : BatteryInfo)
    (procs : List ProcEntry) (killed : Int) (mem : ℚ) (pct : Nat)
    (hp : current.percentage = some pct) :
    ∃ parts, show_impact_report_run (some b) current procs killed mem = Except.ok parts ∧
      (ReportPart.comparisonArt ∈ parts ↔
        b.battery.time_remaining_minutes.getD 0 ≠ 0 ∧
        current.time_remaining_minutes.getD 0 ≠ 0) ∧
      ReportPart.header ∈ parts ∧ ReportPart.procTable ∈ parts ∧
      ReportPart.batteryArt (decide (killed > 0)) ∈ parts ∧
      ReportPart.footer ∈ parts := by
  unfold show_impact_report_run
  rw [hp]
  refine ⟨_, rfl, ?_, ?_, ?_, ?_, ?_⟩
  · by_cases hc : b.battery.time_remaining_minutes.getD 0 ≠ 0 ∧
        current.time_remaining_minutes.getD 0 ≠ 0 <;>
      · simp only [hc, if_pos, if_neg]
        split_ifs <;> simp_all
  · split_ifs <;> simp
  · split_ifs <;> simp
  · split_ifs <;> simp
  · split_ifs <;> simp

/-- Concrete baseline and current reading with nonzero remaining-time
estimates on both sides. -/
def battBefore : BatteryInfo := ⟨some 80, some "juice leaving", some "3:15", some 195⟩

def battAfter : BatteryInfo := ⟨some 85, some "juice leaving", some "4:00", some 240⟩

def baselineBefore : BaselineData := ⟨battBefore, [], 2, 100⟩

/-- C7 witness: with a known percentage and both remaining-time values
nonzero, the report succeeds and contains the temporal comparison together
with the other sections. -/
theorem impact_report_comparison_truthiness_witness :
    ∃ parts, show_impact_report_run (some baselineBefore) battAfter [] 2 100 =
        Except.ok parts ∧
      (ReportPart.comparisonArt ∈ parts ↔
        baselineBefore.battery.time_remaining_minutes.getD 0 ≠ 0 ∧
        battAfter.time_remaining_minutes.getD 0 ≠ 0) ∧
      ReportPart.header ∈ parts ∧ ReportPart.procTable ∈ parts ∧
      ReportPart.batteryArt (decide ((2 : Int) > 0)) ∈ parts ∧
      ReportPart.footer ∈ parts :=
  impact_report_comparison_truthiness baselineBefore battAfter [] 2 100 85 rfl

/-- C8 counterexample: a power query whose output carries no percentage
(here: a machine on wall power with no battery figure) makes the status
command raise a formatting `TypeError` inside `get_battery_art` instead of
reporting a structured message, refuting "baseline commands never crash on
any external-call result". -/
theorem show_status_crash_counterexample :
    (get_battery_info "Now drawing from AC Power").percentage = none ∧
    show_status (get_battery_info "Now drawing from AC Power") = Except.error () := by
  exact ⟨rfl, rfl⟩

/-- C8 (amended): the status command succeeds exactly when the power query
output contains a parseable percentage; when it does not, the command fails
with the formatting error rather than a structured message. -/
theorem show_status_ok_iff_percentage (raw : String) :
    (∃ parts, show_status (get_battery_info raw) = Except.ok parts) ↔
      (get_battery_info raw).percentage ≠ none := by
  cases hp : (get_battery_info raw).percentage with
  | none => simp [show_status, hp]
  | some p => simp [show_status, hp]

/-- C9: every record the collector keeps stores a command of at most 100
characters (the 100-character truncation of the row's command), while its
category and reason come from classifying the untruncated command. -/
theorem process_row_truncation (ct mt : ℚ) (r : PsRow) (p : ProcessInfo)
    (h : process_row ct mt r = some p) :
    p.command.length ≤ 100 ∧
    p.command = String.mk (r.command.data.take 100) ∧
    p.category = (categorize_process r.name r.command).1 ∧
    p.reason = (categorize_process r.name r.command).2 := by
  simp only [process_row] at h
  split_ifs at h with h1 h2
  injection h with h'
  subst h'
  refine ⟨?_, rfl, rfl, rfl⟩
  show (String.mk (r.command.data.take 100)).length ≤ 100
  have hl : (String.mk (r.command.data.take 100)).length = (r.command.data.take 100).length := rfl
  rw [hl, List.length_take]
  exact Nat.min_le_left _ _

/-- Concrete well-formed row: a Vite dev server with a long module path. -/
def rowVite : PsRow := ⟨1234, 55, 204800, "node", "node /repo/node_modules/.bin/vite dev"⟩

/-- The record the collector builds for `rowVite`. -/
def procVite : ProcessInfo :=
  ⟨1234, "node", 55, 204800 / 1024, "node /repo/node_modules/.bin/vite dev",
    "AUTO_KILL", "Vite speed-demon"⟩

/-- C9 witness: the concrete Vite row is kept, its stored command is the
100-character truncation, and its classification equals that of the full
command. -/
theorem process_row_truncation_witness :
    procVite.command.length ≤ 100 ∧
    procVite.command = String.mk (rowVite.command.data.take 100) ∧
    procVite.category = (categorize_process rowVite.name rowVite.command).1 ∧
    procVite.reason = (categorize_process rowVite.name rowVite.command).2 :=
  process_row_truncation 10 500 rowVite procVite rfl

/-- C10: the `after` command derives its report exclusively from the stored
baseline (its killed/freed counters included); a baseline saved with zero
kills always yields a non-improved report: no kill art and a non-improved
battery art, whatever the current readings are. -/
theorem after_report_uses_stored_counters (b : BaselineData) (current : BatteryInfo)
    (procs : List ProcEntry) :
    (compare_to_baseline (some b) current procs =
      show_impact_report_run (some b) current procs b.processes_killed b.mem_freed_mb) ∧
    (∀ battery top mem, (save_baseline battery top 0 mem).processes_killed = 0) ∧
    (∀ battery top mem parts,
      compare_to_baseline (some (save_baseline battery top 0 mem)) current procs =
        Except.ok parts →
      ReportPart.killArt ∉ parts ∧ ReportPart.batteryArt true ∉ parts ∧
      ReportPart.batteryArt false ∈ parts) := by
  refine ⟨rfl, fun battery top mem => rfl, ?_⟩
  intro battery top mem parts h
  unfold compare_to_baseline save_baseline show_impact_report_run at h
  cases hp : current.percentage with
  | none => rw [hp] at h; exact absurd h (by simp)
  | some pct =>
    rw [hp] at h
    simp only [Except.ok.injEq] at h
    subst h
    norm_num
    all_goals simp

/-- The report sections produced for a zero-kill baseline against the
concrete current reading `battAfter`. -/
def partsZeroKill : List ReportPart :=
  [ReportPart.header, ReportPart.comparisonArt, ReportPart.procTable,
    ReportPart.batteryArt false, ReportPart.timeRemainingLine, ReportPart.footer]

/-- C10 witness: an `after` run against a baseline saved with zero kills
produces a report with no kill art and the non-improved battery art. -/
theorem after_report_uses_stored_counters_witness :
    ReportPart.killArt ∉ partsZeroKill ∧
    ReportPart.batteryArt true ∉ partsZeroKill ∧
    ReportPart.batteryArt false ∈ partsZeroKill :=
  (after_report_uses_stored_counters (save_baseline battBefore [] 0 0) battAfter []).2.2
    battBefore [] 0 partsZeroKill
    (by simp [compare_to_baseline, save_baseline, show_impact_report_run,
      battBefore, battAfter, partsZeroKill])
